import Mathlib

/-!
Verification of the session-concurrency and streaming orchestrator of the
claude-telegram-bot repository.  The TypeScript sources
(`src/handlers/streaming.ts`, `src/handlers/text.ts`, `src/heartbeat.ts`,
`src/utils.ts`, `src/config.ts`) are shallowly embedded below: pure string
manipulation becomes functions on `String`/`List Char`, the stateful
handlers become explicit state-passing functions, and the fallible Telegram
transport is modelled by an oracle deciding which transport call throws.
-/

namespace ClaudeBot

/-! ## Configuration constants (src/config.ts) -/

/-- Max characters per Telegram message (`TELEGRAM_MESSAGE_LIMIT = 4096`). -/
def TELEGRAM_MESSAGE_LIMIT : Nat := 4096

/-- Safe limit with buffer for formatting (`TELEGRAM_SAFE_LIMIT = 4000`). -/
def TELEGRAM_SAFE_LIMIT : Nat := 4000

/-- Throttle for streaming updates (`STREAMING_THROTTLE_MS = 500`). -/
def STREAMING_THROTTLE_MS : Nat := 500

/-! ## String primitives

JavaScript strings are modelled as Lean `String`, with the JS operations
(`slice`, `trim`, `includes`, `startsWith`, `replace` with a literal search
value) defined through the underlying character list so that every
definition evaluates by plain list computation. -/

/-- JS `s.slice(0, n)`: the first `n` characters of `s`. -/
def strTake (s : String) (n : Nat) : String := ⟨s.data.take n⟩

/-- JS `s.slice(n)`: all but the first `n` characters of `s`. -/
def strDrop (s : String) (n : Nat) : String := ⟨s.data.drop n⟩

/-- JS `s.startsWith(p)`. -/
def strStartsWith (s p : String) : Bool := p.data.isPrefixOf s.data

/-- Leading-whitespace removal on character lists. -/
def trimLeftL (cs : List Char) : List Char := cs.dropWhile Char.isWhitespace

/-- Whitespace removal at both ends on character lists. -/
def trimL (cs : List Char) : List Char :=
  ((trimLeftL cs).reverse.dropWhile Char.isWhitespace).reverse

/-- JS `s.trimStart()`. -/
def strTrimStart (s : String) : String := ⟨trimLeftL s.data⟩

/-- JS `s.trim()`. -/
def strTrim (s : String) : String := ⟨trimL s.data⟩

/-- Does `pat` occur as a contiguous run inside `hay`?  (JS `includes`.) -/
def hasInfixL (pat : List Char) : List Char → Bool
  | [] => pat.isPrefixOf ([] : List Char)
  | c :: t => pat.isPrefixOf (c :: t) || hasInfixL pat t

/-- JS `hay.includes(pat)`. -/
def strIncludes (hay pat : String) : Bool := hasInfixL pat.data hay.data

/-- Remove the first occurrence of `pat` (JS `s.replace(pat, "")` with a
string search value, which replaces only the first occurrence). -/
def removeFirstL (pat : List Char) : List Char → List Char
  | [] => []
  | c :: t =>
    if pat.isPrefixOf (c :: t) then (c :: t).drop pat.length
    else c :: removeFirstL pat t

/-- JS `s.replace(pat, "")`. -/
def strRemoveFirst (s pat : String) : String := ⟨removeFirstL pat.data s.data⟩

/-- JS `s.toLowerCase()` (ASCII case folding, as used by the `/i` regex
flags on the all-ASCII acknowledgment patterns). -/
def strLower (s : String) : String := ⟨s.data.map Char.toLower⟩

/-- Truncation with an ellipsis marker:
`content.length > limit ? content.slice(0, limit) + "..." : content`. -/
def truncEllipsis (limit : Nat) (content : String) : String :=
  if content.length > limit then strTake content limit ++ "..." else content

/-! ## Association lists standing in for JS `Map` -/

/-- JS `Map.set`: replace the binding of `k` if present, else append. -/
def aset {α : Type} (k : Nat) (v : α) : List (Nat × α) → List (Nat × α)
  | [] => [(k, v)]
  | (k', v') :: t => if k' = k then (k, v) :: t else (k', v') :: aset k v t

/-! ## Streaming render state and status callback (src/handlers/streaming.ts)

The status callback receives typed events (`statusType`, `content`,
optional `segmentId`) and mutates a `StreamingState` while issuing Telegram
render operations (`ctx.reply`, `editMessageText`, `deleteMessage`).  Each
transport call may throw; the code wraps individual calls in local
`try`/`catch` blocks and the whole body in one outer `catch`.  The
embedding threads a call counter `k` through the transport oracle and
records every attempted operation in a trace. -/

/-- A Telegram message handle (`msg.chat.id`, `msg.message_id`). -/
structure Msg where
  chatId : Int
  messageId : Nat
deriving DecidableEq, Repr

/-- One attempted Telegram render operation.  `html` records whether the
call passed `parse_mode: "HTML"`. -/
inductive RenderOp where
  | create (content : String) (html : Bool)
  | edit (m : Msg) (content : String) (html : Bool)
  | delete (m : Msg)
deriving DecidableEq, Repr

/-- `StreamingState` (class in src/handlers/streaming.ts): segment-id to
message map, ephemeral tool/thinking messages, segment-id to last edit
time map. -/
structure StreamingState where
  textMessages : List (Nat × Msg) := []
  toolMessages : List Msg := []
  lastEditTimes : List (Nat × Nat) := []
deriving DecidableEq, Repr

/-- Oracle for the Telegram transport: `failAt k` says whether the `k`-th
transport call of this callback invocation throws, and `msgAt k` is the
message object a successful `ctx.reply` returns. -/
structure Transport where
  failAt : Nat → Bool
  msgAt : Nat → Msg

/-- Result of one status-callback invocation: the updated state, the next
transport-call index, the attempted render operations in order, and
whether an exception escaped the body into the outer `catch` (the
callback itself still returns normally in that case). -/
structure CallbackResult where
  state : StreamingState
  calls : Nat
  trace : List RenderOp
  caught : Bool
deriving DecidableEq, Repr

/-- The chunk loop of the overflow-split branch:
`for (let i = 0; i < formatted.length; i += TELEGRAM_SAFE_LIMIT)`. -/
def chunkList (cs : List Char) : List (List Char) :=
  if h : cs = [] then []
  else cs.take TELEGRAM_SAFE_LIMIT :: chunkList (cs.drop TELEGRAM_SAFE_LIMIT)
termination_by cs.length
decreasing_by
  simp only [List.length_drop]
  have : cs.length ≠ 0 := fun hl => h (List.length_eq_zero.mp hl)
  simp [TELEGRAM_SAFE_LIMIT]
  omega

/-- The successive `slice(i, i + TELEGRAM_SAFE_LIMIT)` chunks of a string. -/
def chunks (s : String) : List String := (chunkList s.data).map fun l => ⟨l⟩

/-- Sending the chunks: each chunk is sent with `parse_mode: "HTML"` inside
a `try` whose `catch` retries as plain text; a failure of the plain-text
retry escapes to the outer handler and abandons the remaining chunks. -/
def sendChunks (tr : Transport) : List String → Nat → Nat × List RenderOp × Bool
  | [], k => (k, [], false)
  | c :: rest, k =>
    if tr.failAt k then
      if tr.failAt (k + 1) then
        (k + 2, [.create c true, .create c false], true)
      else
        let r := sendChunks tr rest (k + 2)
        (r.1, .create c true :: .create c false :: r.2.1, r.2.2)
    else
      let r := sendChunks tr rest (k + 1)
      (r.1, .create c true :: r.2.1, r.2.2)

/-- The `"text"` branch of the status callback (`statusType === "text"`,
`segmentId` present). -/
def textEventStep (fmt : String → String) (tr : Transport) (now : Nat)
    (content : String) (sid : Nat) (st : StreamingState) (k : Nat) :
    CallbackResult :=
  let lastEdit := (st.lastEditTimes.lookup sid).getD 0
  match st.textMessages.lookup sid with
  | none =>
    let display := truncEllipsis TELEGRAM_SAFE_LIMIT content
    let formatted := fmt display
    if tr.failAt k then
      if tr.failAt (k + 1) then
        ⟨st, k + 2, [.create formatted true, .create formatted false], true⟩
      else
        ⟨{ st with textMessages := aset sid (tr.msgAt (k + 1)) st.textMessages,
                   lastEditTimes := aset sid now st.lastEditTimes },
         k + 2, [.create formatted true, .create formatted false], false⟩
    else
      ⟨{ st with textMessages := aset sid (tr.msgAt k) st.textMessages,
                 lastEditTimes := aset sid now st.lastEditTimes },
       k + 1, [.create formatted true], false⟩
  | some m =>
    if (now : Int) - lastEdit > STREAMING_THROTTLE_MS then
      let display := truncEllipsis TELEGRAM_SAFE_LIMIT content
      let formatted := fmt display
      let attempts : Nat × List RenderOp :=
        if tr.failAt k then (k + 2, [.edit m formatted true, .edit m formatted false])
        else (k + 1, [.edit m formatted true])
      ⟨{ st with lastEditTimes := aset sid now st.lastEditTimes },
       attempts.1, attempts.2, false⟩
    else
      ⟨st, k, [], false⟩

/-- The `"segment_end"` branch of the status callback. -/
def segmentEndStep (fmt : String → String) (tr : Transport)
    (content : String) (sid : Nat) (st : StreamingState) (k : Nat) :
    CallbackResult :=
  match st.textMessages.lookup sid with
  | some m =>
    if content ≠ "" then
      let formatted := fmt content
      if formatted.length ≤ TELEGRAM_MESSAGE_LIMIT then
        ⟨st, k + 1, [.edit m formatted true], false⟩
      else
        let r := sendChunks tr (chunks formatted) (k + 1)
        ⟨st, r.1, .delete m :: r.2.1, r.2.2⟩
    else
      ⟨st, k, [], false⟩
  | none => ⟨st, k, [], false⟩

/-- The `"done"` branch: delete every ephemeral tool message, each
deletion in its own `try`/`catch`. -/
def doneStep (st : StreamingState) (k : Nat) : CallbackResult :=
  ⟨st, k + st.toolMessages.length, st.toolMessages.map .delete, false⟩

/-- One invocation of the status callback produced by
`createStatusCallback` (src/handlers/streaming.ts, lines 91-190).
`fmt` stands for the external collaborator `convertMarkdownToHtml`. -/
def statusCallback (fmt : String → String) (tr : Transport) (now : Nat)
    (statusType : String) (content : String) (segmentId : Option Nat)
    (st : StreamingState) (k : Nat) : CallbackResult :=
  if statusType = "thinking" then
    let preview := truncEllipsis 500 content
    let body := "🧠 <i>" ++ preview ++ "</i>"
    if tr.failAt k then ⟨st, k + 1, [.create body true], true⟩
    else ⟨{ st with toolMessages := st.toolMessages ++ [tr.msgAt k] },
          k + 1, [.create body true], false⟩
  else if statusType = "tool" then
    if tr.failAt k then ⟨st, k + 1, [.create content true], true⟩
    else ⟨{ st with toolMessages := st.toolMessages ++ [tr.msgAt k] },
          k + 1, [.create content true], false⟩
  else if statusType = "text" then
    match segmentId with
    | some sid => textEventStep fmt tr now content sid st k
    | none => ⟨st, k, [], false⟩
  else if statusType = "segment_end" then
    match segmentId with
    | some sid => segmentEndStep fmt tr content sid st k
    | none => ⟨st, k, [], false⟩
  else if statusType = "done" then
    doneStep st k
  else
    ⟨st, k, [], false⟩

/-- Concatenation of a list of strings, left to right. -/
def concatStrs : List String → String
  | [] => ""
  | a :: t => a ++ concatStrs t

/-! ## Session state

`src/session.ts` is not part of the provided sources; only its callers
are.  Its state fields and the operations the handlers use are therefore
modelled from the specification (spec §3 "Session" and §4.1 "Session
Controller"). -/

/-- Modelled from the spec: the singleton `Session` object's mutable
fields (`sessionId`, `isRunning`, `stopRequested`, `interruptRequested`,
`lastMessage`, `conversationTitle`, `contextWarning`); `isActive` is
derived ("whether a sessionId exists"). -/
structure SessionState where
  sessionId : Option String := none
  isRunning : Bool := false
  stopRequested : Bool := false
  interruptRequested : Bool := false
  lastMessage : Option String := none
  conversationTitle : Option String := none
  contextWarning : Option String := none
deriving DecidableEq, Repr

/-- Modelled from the spec: `isActive` is whether a `sessionId` exists
(a JS truthy check, so the empty string also counts as absent). -/
def SessionState.isActive (s : SessionState) : Bool :=
  match s.sessionId with
  | none => false
  | some sid => sid ≠ ""

/-- Modelled from the spec: `startProcessing()` marks `isRunning = true`
(the returned closure is `stopProcessing` below). -/
def startProcessing (s : SessionState) : SessionState :=
  { s with isRunning := true }

/-- Modelled from the spec: the closure returned by `startProcessing`
clears `isRunning`. -/
def stopProcessing (s : SessionState) : SessionState :=
  { s with isRunning := false }

/-- Modelled from the spec: `markInterrupt()` sets the single-use
interrupt flag. -/
def markInterrupt (s : SessionState) : SessionState :=
  { s with interruptRequested := true }

/-- Modelled from the spec: `stop()` signals cancellation when a query is
running, setting the transient `stopRequested` flag; no-op otherwise. -/
def sessionStop (s : SessionState) : SessionState :=
  if s.isRunning then { s with stopRequested := true } else s

/-- Modelled from the spec: `clearStopRequested()` clears the transient
cancellation flag so the next query can proceed. -/
def clearStopRequested (s : SessionState) : SessionState :=
  { s with stopRequested := false }

/-- Modelled from the spec: `consumeInterruptFlag()` reads and clears the
single-use interrupt flag. -/
def consumeInterruptFlag (s : SessionState) : Bool × SessionState :=
  (s.interruptRequested, { s with interruptRequested := false })

/-- Modelled from the spec: `kill()` hard-resets the session identity so
subsequent queries start a fresh underlying session. -/
def sessionKill (s : SessionState) : SessionState :=
  { s with sessionId := none }

/-- Modelled from the spec: `consumeContextWarning()` returns the pending
warning (if any) and clears it; consumed exactly once. -/
def consumeContextWarning (s : SessionState) : Option String × SessionState :=
  (s.contextWarning, { s with contextWarning := none })

/-! ## checkInterrupt (src/utils.ts, lines 590-612) -/

/-- Session-level and user-visible actions recorded by the handler
models, in program order. -/
inductive HAction where
  | reply (text : String)
  | rateLimited
  | adapterCall (prompt : String)
  | auditText (content response : String)
  | deleteToolMsg
  | killCall
  | newState
  | markInterruptCall
  | stopCall
  | clearStopCall
deriving DecidableEq, Repr

/-- Result of `checkInterrupt`: the (possibly stripped) text, the session
state, and the session operations performed. -/
structure InterruptResult where
  text : String
  session : SessionState
  trace : List HAction
deriving DecidableEq, Repr

/-- `checkInterrupt(text)`: a leading `"!"` interrupts a running query
(`markInterrupt`, `stop`, short sleep, `clearStopRequested`) and is
stripped together with following whitespace; any other text passes
through untouched. -/
def checkInterrupt (text : String) (s : SessionState) : InterruptResult :=
  if text = "" ∨ ¬ strStartsWith text "!" then ⟨text, s, []⟩
  else
    let strippedText := strTrimStart (strDrop text 1)
    if s.isRunning then
      let s1 := markInterrupt s
      let s2 := sessionStop s1
      let s3 := clearStopRequested s2
      ⟨strippedText, s3, [.markInterruptCall, .stopCall, .clearStopCall]⟩
    else
      ⟨strippedText, s, []⟩

/-! ## Text message handler (src/handlers/text.ts)

`handleText` is embedded as a function of an environment describing the
external collaborators: whether the update carries a user/chat/message,
authorization, the rate-limiter verdict, the outcome of each
`sendMessageStreaming` attempt, which `ctx.reply` calls throw, and how
many ephemeral tool messages each attempt accumulated in its
`StreamingState`.  The result records the final session state, the
ordered action trace, and whether an exception escaped the handler
(skipping the trailing cleanup). -/

/-- `MAX_RETRIES = 1` (src/handlers/text.ts, line 74). -/
def MAX_RETRIES : Nat := 1

/-- Environment of one `handleText` execution. -/
structure HandlerEnv where
  hasUser : Bool
  authorized : Bool
  rateAllowed : Bool
  sendOutcome : Nat → Except String String
  replyFails : Nat → Bool
  toolCount : Nat → Nat

/-- Result of the retry loop: session state, trace, next reply index, and
whether an exception escaped. -/
structure LoopResult where
  session : SessionState
  trace : List HAction
  replies : Nat
  escaped : Bool
deriving DecidableEq, Repr

/-- The retry loop of `handleText`
(`for (let attempt = 0; attempt <= MAX_RETRIES; attempt++)`), with `fuel`
bounding the remaining iterations (`fuel = MAX_RETRIES + 1 - attempt`). -/
def textLoop (env : HandlerEnv) (message : String) :
    Nat → Nat → Nat → SessionState → LoopResult
  | 0, _, r, s => ⟨s, [], r, false⟩
  | fuel + 1, attempt, r, s =>
    match env.sendOutcome attempt with
    | .ok response =>
      let cw := consumeContextWarning s
      ⟨cw.2, [.adapterCall message, .auditText message response], r, false⟩
    | .error e =>
      let deletes := List.replicate (env.toolCount attempt) HAction.deleteToolMsg
      if strIncludes e "exited with code" ∧ attempt < MAX_RETRIES then
        let s1 := sessionKill s
        if env.replyFails r then
          ⟨s1, .adapterCall message :: deletes ++
               [.killCall, .reply "⚠️ Claude crashed, retrying..."], r + 1, true⟩
        else
          let rest := textLoop env message fuel (attempt + 1) (r + 1) s1
          ⟨rest.session,
           .adapterCall message :: deletes ++
             [.killCall, .reply "⚠️ Claude crashed, retrying...", .newState] ++
             rest.trace,
           rest.replies, rest.escaped⟩
      else
        if strIncludes e "abort" || strIncludes e "cancel" then
          let ci := consumeInterruptFlag s
          if ci.1 then
            ⟨ci.2, .adapterCall message :: deletes, r, false⟩
          else
            ⟨ci.2, .adapterCall message :: deletes ++ [.reply "🛑 Query stopped."],
             r + 1, env.replyFails r⟩
        else
          ⟨s, .adapterCall message :: deletes ++
              [.reply ("❌ Error: " ++ strTake e 200)],
           r + 1, env.replyFails r⟩

/-- Steps 4-5 of `handleText`: store the message for retry and, when no
session is active, derive the conversation title from the first message
(truncated to about 50 characters). -/
def preSession (message : String) (s : SessionState) : SessionState :=
  let s1 := { s with lastMessage := some message }
  let title := if message.length > 50 then strTake message 47 ++ "..." else message
  if ¬ s1.isActive then { s1 with conversationTitle := some title } else s1

/-- Result of `handleText`. -/
structure HandlerResult where
  session : SessionState
  trace : List HAction
  escaped : Bool
deriving DecidableEq, Repr

/-- `handleText(ctx)` (src/handlers/text.ts, lines 20-142): guards
(user/message/chat presence, authorization, interrupt prefix, emptiness,
rate limit), then `startProcessing`, the crash-retry loop, and the final
`stopProcessing()` — which is reached only if no exception escaped the
loop. -/
def handleText (env : HandlerEnv) (message0 : String) (s0 : SessionState) :
    HandlerResult :=
  if ¬ env.hasUser ∨ message0 = "" then ⟨s0, [], false⟩
  else if ¬ env.authorized then
    ⟨s0, [.reply "Unauthorized. Contact the bot owner for access."],
     env.replyFails 0⟩
  else
    let ir := checkInterrupt message0 s0
    let message := ir.text
    if strTrim message = "" then ⟨ir.session, ir.trace, false⟩
    else if ¬ env.rateAllowed then
      ⟨ir.session, ir.trace ++ [.rateLimited], env.replyFails 0⟩
    else
      let s3 := startProcessing (preSession message ir.session)
      let lr := textLoop env message (MAX_RETRIES + 1) 0 0 s3
      if lr.escaped then
        ⟨lr.session, ir.trace ++ .newState :: lr.trace, true⟩
      else
        ⟨stopProcessing lr.session, ir.trace ++ .newState :: lr.trace, false⟩

/-! ## Heartbeat (src/heartbeat.ts) -/

/-- Token Claude can include to suppress response delivery
(`HEARTBEAT_TOKEN = "[[HEARTBEAT_ACK]]"`). -/
def HEARTBEAT_TOKEN : String := "[[HEARTBEAT_ACK]]"

/-- Max length for acknowledgment-only responses (`MAX_ACK_LENGTH = 30`). -/
def MAX_ACK_LENGTH : Nat := 30

/-- The anchored, case-insensitive acknowledgment patterns of
`ackPatterns`: each matches a fixed phrase optionally followed by a
period.  The two symbol entries are embedded with the exact (doubly
encoded) characters present in the source file. -/
def ackPhrases : List String :=
  ["ok", "okay", "ack", "acknowledged", "noted",
   "âœ“", "ðŸ‘",
   "heartbeat ok", "heartbeat received", "heartbeat acknowledged",
   "session active", "session alive"]

/-- `pattern.test(trimmed)` over the three `ackPatterns` regexes:
the lowercased input must equal one of the phrases or a phrase followed
by `"."`. -/
def ackMatch (t : String) : Bool :=
  ackPhrases.any fun w => strLower t = w || strLower t = w ++ "."

/-- `shouldSuppressHeartbeatResponse(response)` (src/heartbeat.ts, lines
27-58): suppress empty/whitespace-only responses, token-bearing responses
whose remainder after stripping the token is empty or short, and short
acknowledgment phrases. -/
def shouldSuppressHeartbeatResponse (response : String) : Bool :=
  if response = "" then true
  else
    let trimmed := strTrim response
    if trimmed = "" then true
    else
      let tokenAck :=
        strIncludes trimmed HEARTBEAT_TOKEN &&
          (let stripped := strTrim (strRemoveFirst trimmed HEARTBEAT_TOKEN)
           stripped = "" || stripped.length ≤ MAX_ACK_LENGTH)
      if tokenAck then true
      else if ackMatch trimmed then true
      else false

/-- The classification the specification describes: a response is
suppressible when it is empty or whitespace-only, when it contains the
acknowledgment token with at most a 30-character remainder after
stripping and trimming, or when it matches one of the short
acknowledgment phrases. -/
def suppressibleSpec (response : String) : Bool :=
  strTrim response = "" ||
    (strIncludes (strTrim response) HEARTBEAT_TOKEN &&
      (strTrim (strRemoveFirst (strTrim response) HEARTBEAT_TOKEN)).length
        ≤ MAX_ACK_LENGTH) ||
    ackMatch (strTrim response)

/-- Environment of one heartbeat firing: the outcome of the keep-alive
query and its (opaque) effect on the session state. -/
structure HeartbeatEnv where
  sendOutcome : Except String String
  sendEffect : SessionState → SessionState

/-- Result of one heartbeat firing. -/
structure HeartbeatResult where
  session : SessionState
  lastHeartbeat : Option Nat
  adapterCalls : Nat

/-- `runHeartbeat()` (src/heartbeat.ts, lines 70-111): skip when the
session is inactive or a query is running; otherwise record the firing
time and run exactly one `sendMessageStreaming` with the keep-alive
prompt, absorbing any failure. -/
def runHeartbeat (env : HeartbeatEnv) (now : Nat) (s : SessionState)
    (lastHeartbeat : Option Nat) : HeartbeatResult :=
  if ¬ s.isActive ∨ s.sessionId.getD "" = "" then ⟨s, lastHeartbeat, 0⟩
  else if s.isRunning then ⟨s, lastHeartbeat, 0⟩
  else
    match env.sendOutcome with
    | .ok _ => ⟨env.sendEffect s, some now, 1⟩
    | .error _ => ⟨env.sendEffect s, some now, 1⟩

/-! ## Supporting lemmas -/

/-- Packing respects list append. -/
theorem mk_append (a b : List Char) : (⟨a⟩ : String) ++ ⟨b⟩ = ⟨a ++ b⟩ := rfl

/-- checkInterrupt leaves non-"!" messages and the session untouched. -/
theorem checkInterrupt_no_bang {text : String} {s : SessionState}
    (h : strStartsWith text "!" = false) :
    checkInterrupt text s = ⟨text, s, []⟩ := by
  unfold checkInterrupt
  rw [if_pos (Or.inr (by simp [h]))]

/-- A string starting with "!" is nonempty. -/
theorem ne_empty_of_bang {text : String} (h : strStartsWith text "!" = true) :
    ¬ text = "" := by
  intro he
  subst he
  simp [strStartsWith, List.isPrefixOf] at h

/-- checkInterrupt on a "!"-message while a query runs: strips the prefix,
sets the interrupt flag, signals and then clears the stop flag. -/
theorem checkInterrupt_bang_running {text : String} {s : SessionState}
    (h : strStartsWith text "!" = true) (hr : s.isRunning = true) :
    checkInterrupt text s =
      ⟨strTrimStart (strDrop text 1),
       { s with interruptRequested := true, stopRequested := false },
       [.markInterruptCall, .stopCall, .clearStopCall]⟩ := by
  unfold checkInterrupt
  rw [if_neg (by simp [h, ne_empty_of_bang h])]
  simp [markInterrupt, sessionStop, clearStopRequested, hr]

/-- checkInterrupt on a "!"-message while idle: strips the prefix only. -/
theorem checkInterrupt_bang_idle {text : String} {s : SessionState}
    (h : strStartsWith text "!" = true) (hr : s.isRunning = false) :
    checkInterrupt text s = ⟨strTrimStart (strDrop text 1), s, []⟩ := by
  unfold checkInterrupt
  rw [if_neg (by simp [h, ne_empty_of_bang h])]
  simp [hr]

/-! ## Claim theorems: heartbeat and interrupt -/

/-- Claim C10: `checkInterrupt` returns non-"!" inputs unchanged with no
session operation; for "!"-prefixed inputs it returns the input with the
"!" removed and leading whitespace trimmed, and performs `markInterrupt`,
`stop`, `clearStopRequested` (in that order) precisely when a query was
running. -/
theorem checkInterrupt_spec (text : String) (s : SessionState) :
    (strStartsWith text "!" = false → checkInterrupt text s = ⟨text, s, []⟩) ∧
    (strStartsWith text "!" = true →
      (s.isRunning = true →
        checkInterrupt text s =
          ⟨strTrimStart (strDrop text 1),
           { s with interruptRequested := true, stopRequested := false },
           [.markInterruptCall, .stopCall, .clearStopCall]⟩) ∧
      (s.isRunning = false →
        checkInterrupt text s =
          ⟨strTrimStart (strDrop text 1), s, []⟩)) := by
  refine ⟨fun h => checkInterrupt_no_bang h, fun h => ⟨fun hr => ?_, fun hr => ?_⟩⟩
  · exact checkInterrupt_bang_running h hr
  · exact checkInterrupt_bang_idle h hr

/-- Witness for C10 at a concrete running session and input "! stop now". -/
theorem checkInterrupt_spec_witness :
    checkInterrupt "! stop now" { isRunning := true } =
      ⟨"stop now",
       { isRunning := true, interruptRequested := true, stopRequested := false },
       [.markInterruptCall, .stopCall, .clearStopCall]⟩ ∧
    checkInterrupt "hello" { isRunning := true } =
      ⟨"hello", { isRunning := true }, []⟩ := by
  constructor
  · have h := ((checkInterrupt_spec "! stop now" { isRunning := true }).2
      (by decide)).1 rfl
    rw [h]
    decide
  · exact (checkInterrupt_spec "hello" { isRunning := true }).1 (by decide)

/-- Claim C8: a heartbeat tick while a query runs, or while no session
identifier exists, performs zero adapter invocations and leaves the
session state (and last-heartbeat record) unchanged. -/
theorem heartbeat_skip_no_invocation (env : HeartbeatEnv) (now : Nat)
    (s : SessionState) (lastHB : Option Nat)
    (h : s.isRunning = true ∨ s.sessionId.getD "" = "") :
    runHeartbeat env now s lastHB = ⟨s, lastHB, 0⟩ := by
  unfold runHeartbeat
  by_cases ha : ¬ s.isActive ∨ s.sessionId.getD "" = ""
  · rw [if_pos ha]
  · rw [if_neg ha]
    push_neg at ha
    rcases h with h | h
    · rw [if_pos h]
    · exact absurd h ha.2

/-- Witness for C8: a running session with a live identifier is skipped,
and an idle session with no identifier is skipped. -/
theorem heartbeat_skip_no_invocation_witness :
    runHeartbeat ⟨.ok "pong", id⟩ 7
        { sessionId := some "abc123", isRunning := true } none =
      ⟨{ sessionId := some "abc123", isRunning := true }, none, 0⟩ ∧
    runHeartbeat ⟨.ok "pong", id⟩ 7 {} (some 3) = ⟨{}, some 3, 0⟩ := by
  exact ⟨heartbeat_skip_no_invocation _ _ _ _ (Or.inl rfl),
         heartbeat_skip_no_invocation _ _ _ _ (Or.inr rfl)⟩

/-- Claim C9: `shouldSuppressHeartbeatResponse` returns `true` exactly on
the suppressible class: whitespace-only responses, token-bearing
responses with at most a 30-character remainder, and the short
acknowledgment phrases. -/
theorem heartbeat_suppress_spec (r : String) :
    shouldSuppressHeartbeatResponse r = suppressibleSpec r := by
  unfold shouldSuppressHeartbeatResponse suppressibleSpec
  by_cases hr : r = ""
  · subst hr; decide
  · rw [if_neg hr]
    by_cases ht : strTrim r = ""
    · simp [ht]
    · by_cases hinc : strIncludes (strTrim r) HEARTBEAT_TOKEN
      · by_cases hs : strTrim (strRemoveFirst (strTrim r) HEARTBEAT_TOKEN) = ""
        · simp [ht, hinc, hs, MAX_ACK_LENGTH]
        · by_cases hlen :
              (strTrim (strRemoveFirst (strTrim r) HEARTBEAT_TOKEN)).length
                ≤ MAX_ACK_LENGTH
          · simp [ht, hinc, hs, hlen]
          · simp [ht, hinc, hs, hlen]
      · simp [ht, hinc]

/-! ## Supporting lemmas: chunking -/

/-- Every chunk produced by the overflow split has at most
`TELEGRAM_SAFE_LIMIT` characters. -/
theorem length_le_of_mem_chunkList :
    ∀ (cs : List Char), ∀ l ∈ chunkList cs, l.length ≤ TELEGRAM_SAFE_LIMIT := by
  intro cs
  induction cs using chunkList.induct with
  | case1 =>
    intro l hl
    simp [chunkList] at hl
  | case2 cs hcs ih =>
    intro l hl
    rw [chunkList, dif_neg hcs] at hl
    rcases List.mem_cons.mp hl with rfl | hl
    · exact List.length_take_le _ _
    · exact ih l hl

/-- The chunks concatenate back to the original character list. -/
theorem concat_chunkList (cs : List Char) :
    concatStrs ((chunkList cs).map fun l => (⟨l⟩ : String)) = ⟨cs⟩ := by
  induction cs using chunkList.induct with
  | case1 => simp [chunkList, concatStrs]
  | case2 cs hcs ih =>
    rw [chunkList, dif_neg hcs]
    simp only [List.map_cons, concatStrs]
    rw [ih, mk_append, List.take_append_drop]

/-- Every chunk of `chunks s` is at most `TELEGRAM_SAFE_LIMIT` long. -/
theorem length_le_of_mem_chunks {s : String} :
    ∀ c ∈ chunks s, c.length ≤ TELEGRAM_SAFE_LIMIT := by
  intro c hc
  rcases List.mem_map.mp hc with ⟨l, hl, rfl⟩
  simpa [String.length] using length_le_of_mem_chunkList s.data l hl

/-- The chunks of `s` concatenate back to `s` with no gaps and no
duplication. -/
theorem concat_chunks (s : String) : concatStrs (chunks s) = s := by
  unfold chunks
  rw [concat_chunkList]

/-- With a fault-free transport, `sendChunks` attempts exactly one
HTML create per chunk, in order. -/
theorem sendChunks_ok (tr : Transport) (h : ∀ n, tr.failAt n = false) :
    ∀ (l : List String) (k : Nat),
      sendChunks tr l k =
        (k + l.length, l.map (fun c => RenderOp.create c true), false) := by
  intro l
  induction l with
  | nil => intro k; simp [sendChunks]
  | cons c t ih =>
    intro k
    simp only [sendChunks, h, if_false, Bool.false_eq_true, ih]
    simp
    omega

/-! ## Supporting lemmas: status-callback branch dispatch -/

/-- The `"text"` event dispatches to `textEventStep`. -/
theorem statusCallback_text (fmt : String → String) (tr : Transport)
    (now : Nat) (content : String) (sid : Nat) (st : StreamingState) (k : Nat) :
    statusCallback fmt tr now "text" content (some sid) st k =
      textEventStep fmt tr now content sid st k := rfl

/-- The `"segment_end"` event dispatches to `segmentEndStep`. -/
theorem statusCallback_segment_end (fmt : String → String) (tr : Transport)
    (now : Nat) (content : String) (sid : Nat) (st : StreamingState) (k : Nat) :
    statusCallback fmt tr now "segment_end" content (some sid) st k =
      segmentEndStep fmt tr content sid st k := rfl

/-- The `"done"` event dispatches to `doneStep`. -/
theorem statusCallback_done (fmt : String → String) (tr : Transport)
    (now : Nat) (content : String) (segmentId : Option Nat)
    (st : StreamingState) (k : Nat) :
    statusCallback fmt tr now "done" content segmentId st k = doneStep st k := rfl

/-! ## Claim theorems: streaming dispatcher -/

/-- Claim C2: for `text` events on one segment (with a fault-free
transport), the first event creates the segment message and records the
time; a subsequent event issues an edit if and only if strictly more than
`STREAMING_THROTTLE_MS` elapsed since the segment's last recorded render
update, and otherwise performs no render operation and leaves the state
unchanged. -/
theorem text_event_create_and_throttle (fmt : String → String) (tr : Transport)
    (now : Nat) (content : String) (sid : Nat) (st : StreamingState) (k : Nat)
    (hfail : ∀ n, tr.failAt n = false) :
    (st.textMessages.lookup sid = none →
      statusCallback fmt tr now "text" content (some sid) st k =
        ⟨{ st with textMessages := aset sid (tr.msgAt k) st.textMessages,
                   lastEditTimes := aset sid now st.lastEditTimes },
         k + 1,
         [.create (fmt (truncEllipsis TELEGRAM_SAFE_LIMIT content)) true],
         false⟩) ∧
    (∀ m, st.textMessages.lookup sid = some m →
      ((now : Int) - (st.lastEditTimes.lookup sid).getD 0
          > (STREAMING_THROTTLE_MS : Int) →
        statusCallback fmt tr now "text" content (some sid) st k =
          ⟨{ st with lastEditTimes := aset sid now st.lastEditTimes },
           k + 1,
           [.edit m (fmt (truncEllipsis TELEGRAM_SAFE_LIMIT content)) true],
           false⟩) ∧
      (¬ ((now : Int) - (st.lastEditTimes.lookup sid).getD 0
          > (STREAMING_THROTTLE_MS : Int)) →
        statusCallback fmt tr now "text" content (some sid) st k =
          ⟨st, k, [], false⟩)) := by
  rw [statusCallback_text]
  unfold textEventStep
  refine ⟨fun hnone => ?_, fun m hm => ⟨fun hthr => ?_, fun hthr => ?_⟩⟩
  · rw [hnone]
    simp [hfail]
  · rw [hm]
    simp only [if_pos hthr]
    simp [hfail]
  · rw [hm]
    simp only [if_neg hthr]

/-- Witness for C2: creation on a fresh segment, a dropped update inside
the throttle window, and an edit outside it, on concrete inputs. -/
theorem text_event_create_and_throttle_witness :
    (statusCallback (fun s => s) ⟨fun _ => false, fun _ => ⟨1, 1⟩⟩ 100
        "text" "hi" (some 0) {} 0 =
      ⟨{ textMessages := [(0, ⟨1, 1⟩)], toolMessages := [],
         lastEditTimes := [(0, 100)] },
       1, [.create "hi" true], false⟩) ∧
    (statusCallback (fun s => s) ⟨fun _ => false, fun _ => ⟨1, 1⟩⟩ 400
        "text" "hi there" (some 0)
        { textMessages := [(0, ⟨1, 1⟩)], lastEditTimes := [(0, 100)] } 1 =
      ⟨{ textMessages := [(0, ⟨1, 1⟩)], toolMessages := [],
         lastEditTimes := [(0, 100)] },
       1, [], false⟩) ∧
    (statusCallback (fun s => s) ⟨fun _ => false, fun _ => ⟨1, 1⟩⟩ 601
        "text" "hi there" (some 0)
        { textMessages := [(0, ⟨1, 1⟩)], lastEditTimes := [(0, 100)] } 1 =
      ⟨{ textMessages := [(0, ⟨1, 1⟩)], toolMessages := [],
         lastEditTimes := [(0, 601)] },
       2, [.edit ⟨1, 1⟩ "hi there" true], false⟩) := by
  refine ⟨?_, ?_, ?_⟩
  · rw [(text_event_create_and_throttle (fun s => s)
      ⟨fun _ => false, fun _ => ⟨1, 1⟩⟩ 100 "hi" 0 {} 0 (fun _ => rfl)).1 rfl]
    decide
  · rw [((text_event_create_and_throttle (fun s => s)
      ⟨fun _ => false, fun _ => ⟨1, 1⟩⟩ 400 "hi there" 0
      { textMessages := [(0, ⟨1, 1⟩)], lastEditTimes := [(0, 100)] } 1
      (fun _ => rfl)).2 ⟨1, 1⟩ rfl).2 (by decide)]
  · rw [((text_event_create_and_throttle (fun s => s)
      ⟨fun _ => false, fun _ => ⟨1, 1⟩⟩ 601 "hi there" 0
      { textMessages := [(0, ⟨1, 1⟩)], lastEditTimes := [(0, 100)] } 1
      (fun _ => rfl)).2 ⟨1, 1⟩ rfl).1 (by decide)]
    decide

/-- Concrete transport and state used by the C3 counterexample. -/
def tr0 : Transport := ⟨fun _ => false, fun _ => ⟨5, 1⟩⟩

/-- A state holding one rendered segment message for segment 0. -/
def st0 : StreamingState :=
  { textMessages := [(0, ⟨5, 1⟩)], toolMessages := [], lastEditTimes := [(0, 0)] }

/-- Counterexample to claim C3 as stated: a `segment_end` with empty
final content, and a `segment_end` for a segment with no previously
created message, both produce no render operation at all. -/
theorem segment_end_empty_content_no_render :
    (statusCallback (fun s => s) tr0 1000 "segment_end" "" (some 0) st0 0).trace
        = [] ∧
    (statusCallback (fun s => s) tr0 1000 "segment_end" "final" (some 7) st0 0).trace
        = [] := by
  constructor
  · rfl
  · rfl

/-- Claim C3 (amended): for every `segment_end` event whose segment has a
previously created message and whose final content is non-empty, the
dispatcher issues a render operation regardless of throttle timing and of
transport failures; when the formatted final content fits within
`TELEGRAM_MESSAGE_LIMIT` it is exactly one final edit carrying the
complete formatted content. -/
theorem segment_end_bypasses_throttle (fmt : String → String) (tr : Transport)
    (now : Nat) (content : String) (sid : Nat) (st : StreamingState) (k : Nat)
    (m : Msg) (hm : st.textMessages.lookup sid = some m) (hc : content ≠ "") :
    (statusCallback fmt tr now "segment_end" content (some sid) st k).trace ≠ [] ∧
    ((fmt content).length ≤ TELEGRAM_MESSAGE_LIMIT →
      statusCallback fmt tr now "segment_end" content (some sid) st k =
        ⟨st, k + 1, [.edit m (fmt content) true], false⟩) := by
  rw [statusCallback_segment_end]
  unfold segmentEndStep
  rw [hm]
  simp only [if_pos hc]
  constructor
  · by_cases hlen : (fmt content).length ≤ TELEGRAM_MESSAGE_LIMIT
    · simp [hlen]
    · simp [hlen]
  · intro hlen
    simp [hlen]

/-- Witness for C3's amended theorem: a concrete short final content is
rendered as one unconditional final edit even though the last edit was
recorded at the current instant. -/
theorem segment_end_bypasses_throttle_witness :
    statusCallback (fun s => s) ⟨fun _ => false, fun _ => ⟨5, 1⟩⟩ 0
        "segment_end" "final text" (some 0)
        { textMessages := [(0, ⟨5, 1⟩)], lastEditTimes := [(0, 0)] } 0 =
      ⟨{ textMessages := [(0, ⟨5, 1⟩)], toolMessages := [],
         lastEditTimes := [(0, 0)] },
       1, [.edit ⟨5, 1⟩ "final text" true], false⟩ := by
  rw [(segment_end_bypasses_throttle (fun s => s)
    ⟨fun _ => false, fun _ => ⟨5, 1⟩⟩ 0 "final text" 0
    { textMessages := [(0, ⟨5, 1⟩)], lastEditTimes := [(0, 0)] } 0 ⟨5, 1⟩
    rfl (by decide)).2 (by decide)]

/-- Claim C4: at `segment_end`, a final content whose formatted form
exceeds `TELEGRAM_MESSAGE_LIMIT` makes the dispatcher delete the
segment's existing message and re-send the content as consecutive new
messages, each at most `TELEGRAM_SAFE_LIMIT` characters, concatenating
back to the full formatted content with no gaps and no duplication
(stated for a fault-free transport). -/
theorem segment_overflow_split (fmt : String → String) (tr : Transport)
    (now : Nat) (content : String) (sid : Nat) (st : StreamingState) (k : Nat)
    (m : Msg) (hm : st.textMessages.lookup sid = some m) (hc : content ≠ "")
    (hlen : TELEGRAM_MESSAGE_LIMIT < (fmt content).length)
    (hfail : ∀ n, tr.failAt n = false) :
    statusCallback fmt tr now "segment_end" content (some sid) st k =
      ⟨st, k + 1 + (chunks (fmt content)).length,
       .delete m :: (chunks (fmt content)).map (fun c => .create c true),
       false⟩ ∧
    (∀ c ∈ chunks (fmt content), c.length ≤ TELEGRAM_SAFE_LIMIT) ∧
    concatStrs (chunks (fmt content)) = fmt content := by
  refine ⟨?_, length_le_of_mem_chunks, concat_chunks _⟩
  rw [statusCallback_segment_end]
  unfold segmentEndStep
  rw [hm]
  simp only [if_pos hc, if_neg (by omega : ¬ (fmt content).length ≤ TELEGRAM_MESSAGE_LIMIT)]
  rw [sendChunks_ok tr hfail]

/-- A 5000-character content used to witness the overflow split. -/
def bigContent : String := ⟨List.replicate 5000 'a'⟩

/-- The witness content has 5000 characters. -/
theorem bigContent_length : bigContent.length = 5000 := by
  show (List.replicate 5000 'a').length = 5000
  exact List.length_replicate _ _

/-- The witness content is non-empty. -/
theorem bigContent_ne_empty : bigContent ≠ "" := by
  intro h
  have h5 := congrArg String.length h
  rw [bigContent_length] at h5
  exact absurd h5 (by decide)

/-- Witness for C4 at a concrete 5000-character final content: the
existing message is deleted and two chunks of 4000 and 1000 characters
are sent, concatenating back to the content. -/
theorem segment_overflow_split_witness :
    statusCallback (fun s => s) ⟨fun _ => false, fun _ => ⟨5, 1⟩⟩ 0
        "segment_end" bigContent (some 0) st0 0 =
      ⟨st0, 0 + 1 + (chunks bigContent).length,
       .delete ⟨5, 1⟩ :: (chunks bigContent).map (fun c => .create c true),
       false⟩ ∧
    concatStrs (chunks bigContent) = bigContent := by
  have h := segment_overflow_split (fun s => s)
    ⟨fun _ => false, fun _ => ⟨5, 1⟩⟩ 0 bigContent 0 st0 0 ⟨5, 1⟩
    rfl bigContent_ne_empty
    (by show TELEGRAM_MESSAGE_LIMIT < bigContent.length
        rw [bigContent_length]
        decide)
    (fun _ => rfl)
  exact ⟨h.1, h.2.2⟩

/-- Claim C5: transport failures during rendering are absorbed: `done`
handling attempts the deletion of every ephemeral message for every
failure oracle; throttled edits and final edits absorb the failure of the
edit call locally (the outer catch does not even fire); and when a
creation fails irrecoverably the outer catch fires and the callback still
returns an ordinary result, never propagating the exception. -/
theorem render_failures_absorbed (fmt : String → String) (tr : Transport)
    (now : Nat) (content : String) (sid : Nat) (st : StreamingState) (k : Nat)
    (m : Msg) (hm : st.textMessages.lookup sid = some m) :
    (∀ (tr' : Transport) (c : String) (sg : Option Nat),
      statusCallback fmt tr' now "done" c sg st k =
        ⟨st, k + st.toolMessages.length, st.toolMessages.map .delete, false⟩) ∧
    ((now : Int) - (st.lastEditTimes.lookup sid).getD 0
        > (STREAMING_THROTTLE_MS : Int) →
      (statusCallback fmt tr now "text" content (some sid) st k).caught = false) ∧
    (content ≠ "" → (fmt content).length ≤ TELEGRAM_MESSAGE_LIMIT →
      (statusCallback fmt tr now "segment_end" content (some sid) st k).caught
        = false) ∧
    (tr.failAt k = true →
      statusCallback fmt tr now "thinking" content (some sid) st k =
        ⟨st, k + 1,
         [.create ("🧠 <i>" ++ truncEllipsis 500 content ++ "</i>") true],
         true⟩) := by
  refine ⟨fun tr' c sg => statusCallback_done fmt tr' now c sg st k, ?_, ?_, ?_⟩
  · intro hthr
    rw [statusCallback_text]
    unfold textEventStep
    rw [hm]
    simp only [if_pos hthr]
  · intro hc hlen
    rw [statusCallback_segment_end]
    unfold segmentEndStep
    rw [hm]
    simp [hc, hlen]
  · intro hf
    unfold statusCallback
    simp [hf]

/-- Witness for C5: a failing transport during `done` still attempts both
ephemeral deletions, and a failing final edit is absorbed. -/
theorem render_failures_absorbed_witness :
    statusCallback (fun s => s) ⟨fun _ => true, fun _ => ⟨5, 1⟩⟩ 0 "done" ""
        none
        { textMessages := [(0, ⟨5, 1⟩)], toolMessages := [⟨5, 2⟩, ⟨5, 3⟩],
          lastEditTimes := [(0, 0)] } 0 =
      ⟨{ textMessages := [(0, ⟨5, 1⟩)], toolMessages := [⟨5, 2⟩, ⟨5, 3⟩],
         lastEditTimes := [(0, 0)] },
       2, [.delete ⟨5, 2⟩, .delete ⟨5, 3⟩], false⟩ ∧
    (statusCallback (fun s => s) ⟨fun _ => true, fun _ => ⟨5, 1⟩⟩ 0
        "segment_end" "final" (some 0)
        { textMessages := [(0, ⟨5, 1⟩)], toolMessages := [⟨5, 2⟩, ⟨5, 3⟩],
          lastEditTimes := [(0, 0)] } 0).caught = false := by
  have h := render_failures_absorbed (fun s => s)
    ⟨fun _ => true, fun _ => ⟨5, 1⟩⟩ 0 "final" 0
    { textMessages := [(0, ⟨5, 1⟩)], toolMessages := [⟨5, 2⟩, ⟨5, 3⟩],
      lastEditTimes := [(0, 0)] } 0 ⟨5, 1⟩ rfl
  refine ⟨?_, h.2.2.1 (by decide) (by decide)⟩
  rw [h.1 ⟨fun _ => true, fun _ => ⟨5, 1⟩⟩ "" none]
  rfl

/-! ## Supporting lemmas: text handler -/

/-- The pre-loop bookkeeping (steps 4-5) touches only `lastMessage` and
`conversationTitle`. -/
theorem preSession_fields (message : String) (s : SessionState) :
    (preSession message s).sessionId = s.sessionId ∧
    (preSession message s).isRunning = s.isRunning ∧
    (preSession message s).stopRequested = s.stopRequested ∧
    (preSession message s).interruptRequested = s.interruptRequested ∧
    (preSession message s).contextWarning = s.contextWarning := by
  unfold preSession
  by_cases h : ({ s with lastMessage := some message } : SessionState).isActive
  · simp [h]
  · simp [h]

/-- On an authorized, non-empty, non-"!" message within the rate limit,
`handleText` runs the retry loop on the processed session and appends the
loop trace after the fresh-state allocation. -/
theorem handleText_main (env : HandlerEnv) (msg : String) (s : SessionState)
    (h1 : env.hasUser = true) (h2 : env.authorized = true)
    (h3 : strStartsWith msg "!" = false) (h4 : strTrim msg ≠ "")
    (h5 : env.rateAllowed = true) :
    handleText env msg s =
      (let lr := textLoop env msg (MAX_RETRIES + 1) 0 0
                   (startProcessing (preSession msg s))
       if lr.escaped then ⟨lr.session, .newState :: lr.trace, true⟩
       else ⟨stopProcessing lr.session, .newState :: lr.trace, false⟩) := by
  have hmsg : ¬ msg = "" := by
    intro he
    exact h4 (by rw [he]; rfl)
  unfold handleText
  rw [checkInterrupt_no_bang h3]
  simp [h1, h2, h4, h5, hmsg]

/-- First attempt crashes, second succeeds: the loop kills the session,
notifies, allocates a fresh state, and reissues the prompt once. -/
theorem textLoop_crash_then_ok {env : HandlerEnv} {msg : String}
    {s : SessionState} {e0 resp : String}
    (h0 : env.sendOutcome 0 = .error e0)
    (hcrash : strIncludes e0 "exited with code" = true)
    (h1 : env.sendOutcome 1 = .ok resp)
    (hr : ∀ n, env.replyFails n = false) :
    textLoop env msg (MAX_RETRIES + 1) 0 0 s =
      ⟨{ sessionKill s with contextWarning := none },
       .adapterCall msg ::
         (List.replicate (env.toolCount 0) HAction.deleteToolMsg ++
          [.killCall, .reply "⚠️ Claude crashed, retrying...", .newState,
           .adapterCall msg, .auditText msg resp]),
       1, false⟩ := by
  rw [textLoop, h0]
  simp only [hcrash, MAX_RETRIES, hr]
  rw [show (1 : Nat) = 0 + 1 from rfl, textLoop, h1]
  simp [consumeContextWarning, sessionKill]

/-- Both attempts crash: exactly one retry happens, the second failure is
reported with an error notice, and the loop ends. -/
theorem textLoop_crash_then_crash {env : HandlerEnv} {msg : String}
    {s : SessionState} {e0 e1 : String}
    (h0 : env.sendOutcome 0 = .error e0)
    (hcrash : strIncludes e0 "exited with code" = true)
    (h1 : env.sendOutcome 1 = .error e1)
    (hab : strIncludes e1 "abort" = false)
    (hcan : strIncludes e1 "cancel" = false)
    (hr : ∀ n, env.replyFails n = false) :
    textLoop env msg (MAX_RETRIES + 1) 0 0 s =
      ⟨sessionKill s,
       .adapterCall msg ::
         (List.replicate (env.toolCount 0) HAction.deleteToolMsg ++
          [.killCall, .reply "⚠️ Claude crashed, retrying...", .newState] ++
          .adapterCall msg ::
            (List.replicate (env.toolCount 1) HAction.deleteToolMsg ++
             [.reply ("❌ Error: " ++ strTake e1 200)])),
       2, false⟩ := by
  rw [textLoop, h0]
  simp only [hcrash, MAX_RETRIES, hr]
  rw [show (1 : Nat) = 0 + 1 from rfl, textLoop, h1]
  simp [hab, hcan, hr, MAX_RETRIES]

/-- A single cancelled attempt: the interrupt flag decides whether the
stop notice is shown and is consumed either way. -/
theorem textLoop_cancelled {env : HandlerEnv} {msg : String}
    {s : SessionState} {e0 : String}
    (h0 : env.sendOutcome 0 = .error e0)
    (hnc : strIncludes e0 "exited with code" = false)
    (hab : strIncludes e0 "abort" = true ∨ strIncludes e0 "cancel" = true)
    (hr : ∀ n, env.replyFails n = false) :
    textLoop env msg (MAX_RETRIES + 1) 0 0 s =
      (if s.interruptRequested then
        ⟨{ s with interruptRequested := false },
         .adapterCall msg ::
           List.replicate (env.toolCount 0) HAction.deleteToolMsg,
         0, false⟩
      else
        ⟨{ s with interruptRequested := false },
         .adapterCall msg ::
           (List.replicate (env.toolCount 0) HAction.deleteToolMsg ++
            [.reply "🛑 Query stopped."]),
         1, false⟩) := by
  rw [textLoop, h0]
  simp only [hnc, MAX_RETRIES, hr, consumeInterruptFlag]
  rcases hab with hab | hab
  · simp [hab]
  · simp [hab]

/-- Is an action an adapter (`sendMessageStreaming`) invocation? -/
def isAdapterCall : HAction → Bool
  | .adapterCall _ => true
  | _ => false

/-- Is an action a user-visible failure notice (an error reply or the
stop notice)? -/
def isFailureNotice : HAction → Bool
  | .reply t => strStartsWith t "❌" || t == "🛑 Query stopped."
  | _ => false

/-! ## Claim theorems: text handler -/

/-- Environment exhibiting the C1 failure: the adapter rejects with a
cancellation error and every `ctx.reply` throws. -/
def envC1 : HandlerEnv :=
  { hasUser := true, authorized := true, rateAllowed := true,
    sendOutcome := fun _ => .error "This operation was aborted",
    replyFails := fun _ => true,
    toolCount := fun _ => 0 }

/-- The same environment with a healthy reply transport. -/
def envC1ok : HandlerEnv :=
  { envC1 with replyFails := fun _ => false }

/-- Claim C1 (code bug in `handleText`): when the query fails and the
subsequent `ctx.reply` notice itself throws, the exception escapes the
handler before the trailing `stopProcessing()` on line 140 runs, leaving
`isRunning` stuck at `true`; with a healthy reply transport the very same
input clears it. -/
theorem isRunning_stuck_on_reply_throw :
    (handleText envC1 "hello" {}).session.isRunning = true ∧
    (handleText envC1 "hello" {}).escaped = true ∧
    (handleText envC1ok "hello" {}).session.isRunning = false := by
  refine ⟨rfl, rfl, rfl⟩

/-- Claim C6: crash-then-success performs exactly one retry — two adapter
invocations of the same prompt, one `kill()`, the retry notice, a fresh
streaming state, deletion of the first attempt's ephemeral messages, and
zero user-visible failure notices; crash-then-crash stops after the
second invocation and surfaces the error to the user. -/
theorem crash_retry_protocol
    (env₁ env₂ : HandlerEnv) (msg : String) (s : SessionState)
    (e0 e1 f0 resp : String)
    (hu₁ : env₁.hasUser = true) (ha₁ : env₁.authorized = true)
    (hrt₁ : env₁.rateAllowed = true)
    (hb : strStartsWith msg "!" = false) (hm : strTrim msg ≠ "")
    (h0 : env₁.sendOutcome 0 = .error e0)
    (hc0 : strIncludes e0 "exited with code" = true)
    (h1 : env₁.sendOutcome 1 = .ok resp)
    (hr₁ : ∀ n, env₁.replyFails n = false)
    (hu₂ : env₂.hasUser = true) (ha₂ : env₂.authorized = true)
    (hrt₂ : env₂.rateAllowed = true)
    (g0 : env₂.sendOutcome 0 = .error f0)
    (gc0 : strIncludes f0 "exited with code" = true)
    (g1 : env₂.sendOutcome 1 = .error e1)
    (gab : strIncludes e1 "abort" = false)
    (gcan : strIncludes e1 "cancel" = false)
    (hr₂ : ∀ n, env₂.replyFails n = false) :
    ((handleText env₁ msg s).trace.filter isAdapterCall
        = [.adapterCall msg, .adapterCall msg] ∧
     (handleText env₁ msg s).trace.count .killCall = 1 ∧
     (.reply "⚠️ Claude crashed, retrying...") ∈ (handleText env₁ msg s).trace ∧
     (handleText env₁ msg s).trace.filter isFailureNotice = [] ∧
     (handleText env₁ msg s).trace.count .newState = 2 ∧
     (handleText env₁ msg s).trace.count .deleteToolMsg = env₁.toolCount 0 ∧
     (handleText env₁ msg s).escaped = false) ∧
    ((handleText env₂ msg s).trace.filter isAdapterCall
        = [.adapterCall msg, .adapterCall msg] ∧
     (.reply ("❌ Error: " ++ strTake e1 200)) ∈ (handleText env₂ msg s).trace) := by
  have H₁ := handleText_main env₁ msg s hu₁ ha₁ hb hm hrt₁
  rw [textLoop_crash_then_ok h0 hc0 h1 hr₁] at H₁
  simp only [] at H₁
  have H₂ := handleText_main env₂ msg s hu₂ ha₂ hb hm hrt₂
  rw [textLoop_crash_then_crash g0 gc0 g1 gab gcan hr₂] at H₂
  simp only [] at H₂
  rw [H₁, H₂]
  refine ⟨⟨?_, ?_, ?_, ?_, ?_, ?_, ?_⟩, ?_, ?_⟩ <;>
    simp [isAdapterCall, isFailureNotice, List.filter_replicate,
          List.count_replicate, List.mem_replicate, strStartsWith,
          List.isPrefixOf]

/-- Scenario environment: first attempt crashes, second succeeds. -/
def envA : HandlerEnv :=
  { hasUser := true, authorized := true, rateAllowed := true,
    sendOutcome := fun n =>
      if n = 0 then .error "claude exited with code 1" else .ok "done",
    replyFails := fun _ => false,
    toolCount := fun _ => 2 }

/-- Scenario environment: both attempts crash. -/
def envB : HandlerEnv :=
  { hasUser := true, authorized := true, rateAllowed := true,
    sendOutcome := fun _ => .error "claude exited with code 1",
    replyFails := fun _ => false,
    toolCount := fun _ => 0 }

/-- Witness for C6 on concrete environments: crash-then-success gives two
adapter calls, one kill and no failure notice; crash-then-crash surfaces
the error. -/
theorem crash_retry_protocol_witness :
    (handleText envA "hi" {}).trace.count .killCall = 1 ∧
    (handleText envA "hi" {}).trace.filter isFailureNotice = [] ∧
    (handleText envB "hi" {}).trace.filter isAdapterCall
      = [.adapterCall "hi", .adapterCall "hi"] ∧
    (.reply ("❌ Error: " ++ strTake "claude exited with code 1" 200))
      ∈ (handleText envB "hi" {}).trace := by
  have h := crash_retry_protocol envA envB "hi" {}
    "claude exited with code 1" "claude exited with code 1"
    "claude exited with code 1" "done"
    rfl rfl rfl (by decide) (by decide)
    rfl (by decide) rfl (fun _ => rfl)
    rfl rfl rfl
    rfl (by decide) rfl (by decide) (by decide) (fun _ => rfl)
  exact ⟨h.1.2.1, h.1.2.2.2.1, h.2.1, h.2.2⟩

/-- Environment for the cancellation scenario of C7. -/
def envC : HandlerEnv :=
  { hasUser := true, authorized := true, rateAllowed := true,
    sendOutcome := fun _ => .error "The operation was aborted",
    replyFails := fun _ => false,
    toolCount := fun _ => 0 }

/-- Claim C7: on a cancelled query, the "query stopped" notice appears in
the handler's trace exactly when the interrupt flag was not set; the flag
is consumed either way; and `checkInterrupt` on a "!"-prefixed message
while a query runs is what sets the flag. -/
theorem stop_notice_iff_not_interrupt
    (env : HandlerEnv) (msg : String) (s : SessionState) (e0 : String)
    (hu : env.hasUser = true) (ha : env.authorized = true)
    (hrt : env.rateAllowed = true)
    (hb : strStartsWith msg "!" = false) (hm : strTrim msg ≠ "")
    (h0 : env.sendOutcome 0 = .error e0)
    (hnc : strIncludes e0 "exited with code" = false)
    (hab : strIncludes e0 "abort" = true ∨ strIncludes e0 "cancel" = true)
    (hr : ∀ n, env.replyFails n = false) :
    ((.reply "🛑 Query stopped.") ∈ (handleText env msg s).trace
        ↔ s.interruptRequested = false) ∧
    (handleText env msg s).session.interruptRequested = false ∧
    (∀ (msg2 : String) (s' : SessionState),
      strStartsWith msg2 "!" = true → s'.isRunning = true →
      (checkInterrupt msg2 s').session.interruptRequested = true) := by
  have H := handleText_main env msg s hu ha hb hm hrt
  rw [textLoop_cancelled h0 hnc hab hr] at H
  have hpre := (preSession_fields msg s).2.2.2.1
  by_cases hi : s.interruptRequested = true
  · have hcond : (startProcessing (preSession msg s)).interruptRequested = true := by
      simp [startProcessing, hpre, hi]
    rw [if_pos hcond] at H
    refine ⟨?_, ?_, ?_⟩
    · rw [H]
      simp [hi, List.mem_replicate]
    · rw [H]
      simp [stopProcessing]
    · intro msg2 s' hb2 hrun
      rw [checkInterrupt_bang_running hb2 hrun]
  · have hif : s.interruptRequested = false := by
      simpa using hi
    have hcond : ¬ (startProcessing (preSession msg s)).interruptRequested = true := by
      simp [startProcessing, hpre, hif]
    rw [if_neg hcond] at H
    refine ⟨?_, ?_, ?_⟩
    · rw [H]
      simp [hif]
    · rw [H]
      simp [stopProcessing]
    · intro msg2 s' hb2 hrun
      rw [checkInterrupt_bang_running hb2 hrun]

/-- Witness for C7: with the interrupt flag set the stop notice is
absent; with it clear the notice is shown. -/
theorem stop_notice_iff_not_interrupt_witness :
    ¬ ((.reply "🛑 Query stopped.")
        ∈ (handleText envC "hi" { interruptRequested := true }).trace) ∧
    (.reply "🛑 Query stopped.") ∈ (handleText envC "hi" {}).trace := by
  constructor
  · intro hmem
    have h := (stop_notice_iff_not_interrupt envC "hi"
      { interruptRequested := true } "The operation was aborted"
      rfl rfl rfl (by decide) (by decide) rfl (by decide)
      (Or.inl (by decide)) (fun _ => rfl)).1
    exact absurd (h.mp hmem) (by decide)
  · exact (stop_notice_iff_not_interrupt envC "hi" {}
      "The operation was aborted"
      rfl rfl rfl (by decide) (by decide) rfl (by decide)
      (Or.inl (by decide)) (fun _ => rfl)).1.mpr rfl

end ClaudeBot
